import Mathlib

/-!
Verification of the deterministic Falcon-1024 signing/verification wrappers
(`falcon_wrapper.c`, exposed to JavaScript through the `Falcon` class of
`index.js`).  The lattice library itself (`falcon.h` / `deterministic.h`)
is an external collaborator; it is embedded as an opaque capability
structure `FalconLib`, and its numeric constants are modelled from the
specification and the sizes the repository documentation reports.
-/

/-- Modelled from the spec: FALCON_DET1024_LOGN from the missing
`deterministic.h`; the parameter set is logDegree 10 (degree 1024). -/
def FALCON_DET1024_LOGN : Nat := 10

/-- Modelled from the spec: FALCON_DET1024_PRIVKEY_SIZE from the missing
`deterministic.h`; secret keys are 2305 bytes at logDegree 10. -/
def FALCON_DET1024_PRIVKEY_SIZE : Nat := 2305

/-- Modelled from the spec: FALCON_DET1024_PUBKEY_SIZE from the missing
`deterministic.h`; public keys are 1793 bytes at logDegree 10. -/
def FALCON_DET1024_PUBKEY_SIZE : Nat := 1793

/-- Modelled from the spec: FALCON_SIG_COMPRESSED_MAXSIZE(10) from the
missing `falcon.h`; the inner salted compressed signature is at most
1462 bytes (the size the repository README reports for the inner
compressed maximum). -/
def FALCON_SIG_COMPRESSED_MAXSIZE10 : Nat := 1462

/-- Modelled from the spec: FALCON_DET1024_SIG_COMPRESSED_MAXSIZE from the
missing `deterministic.h`; the deterministic wire signature is 39 bytes
shorter than the inner salted one, so the maximum is 1462 - 40 + 1 = 1423. -/
def FALCON_DET1024_SIG_COMPRESSED_MAXSIZE : Nat :=
  FALCON_SIG_COMPRESSED_MAXSIZE10 - 40 + 1

/-- Modelled from the spec: FALCON_DET1024_SIG_CT_SIZE from the missing
`deterministic.h`; constant-time signatures are exactly 1538 bytes. -/
def FALCON_DET1024_SIG_CT_SIZE : Nat := 1538

/-- Modelled from the spec: FALCON_DET1024_CURRENT_SALT_VERSION from the
missing `deterministic.h`; the current salt version is 0 (the README
sample signatures carry byte 1 = 0x00). -/
def FALCON_DET1024_CURRENT_SALT_VERSION : Nat := 0

/-- Modelled from the spec: FALCON_DET1024_SIG_COMPRESSED_HEADER from the
missing `deterministic.h`; the inner compressed header at logDegree 10 is
0x3A and the deterministic tag bit 0x80 is OR'd in, giving 0xBA (the
README sample compressed signature starts with byte 0xBA). -/
def FALCON_DET1024_SIG_COMPRESSED_HEADER : Nat := 0xBA

/-- Modelled from the spec: FALCON_DET1024_SIG_CT_HEADER from the missing
`deterministic.h`; the inner constant-time header at logDegree 10 is 0x5A
and the deterministic tag bit 0x80 is OR'd in, giving 0xDA (the README
sample constant-time signature starts with byte 0xDA). -/
def FALCON_DET1024_SIG_CT_HEADER : Nat := 0xDA

/-- Modelled from the spec: the FALCON_SIG_COMPRESSED signature-type tag of
the missing `falcon.h` (only its distinctness from FALCON_SIG_CT matters). -/
def FALCON_SIG_COMPRESSED : Nat := 1

/-- Modelled from the spec: the FALCON_SIG_CT signature-type tag of the
missing `falcon.h`. -/
def FALCON_SIG_CT : Nat := 3

/-- Modelled from the spec: the FALCON_ERR_FORMAT error code of the missing
`falcon.h` (FormatError in the spec taxonomy). -/
def FALCON_ERR_FORMAT : Int := -3

/-- Modelled from the spec: the FALCON_ERR_BADSIG error code of the missing
`falcon.h` (BadSignatureFormat in the spec taxonomy). -/
def FALCON_ERR_BADSIG : Int := -4

/-- SHAKE256 sponge state, abstracted per the XOF-adapter contract: the
state is determined by the bytes absorbed so far and whether the sponge
has been flipped to output mode. -/
structure Shake256Context where
  absorbed : List Nat
  flipped : Bool
deriving DecidableEq

/-- shake256_init: fresh sponge in input mode. -/
def shake256_init : Shake256Context := ⟨[], false⟩

/-- shake256_inject: absorb further bytes. -/
def shake256_inject (ctx : Shake256Context) (data : List Nat) : Shake256Context :=
  ⟨ctx.absorbed ++ data, ctx.flipped⟩

/-- shake256_flip: irreversibly switch to output (PRNG) mode. -/
def shake256_flip (ctx : Shake256Context) : Shake256Context :=
  ⟨ctx.absorbed, true⟩

/-- shake256_init_prng_from_seed: per the XOF-adapter contract this is
functionally identical to init, absorb of the seed, then flip. -/
def shake256_init_prng_from_seed (seed : List Nat) : Shake256Context :=
  shake256_flip (shake256_inject shake256_init seed)

/-- The external lattice library (falcon.h capability surface consumed by
the wrapper): each field is one external C function, taken as an opaque
deterministic function of its inputs. -/
structure FalconLib where
  falcon_get_logn : List Nat → Int
  falcon_sign_dyn_finish :
    Shake256Context → Nat → List Nat → Shake256Context → List Nat →
      Except Int (List Nat)
  falcon_verify : List Nat → Nat → List Nat → List Nat → Int
  falcon_det1024_keygen : Shake256Context → Int × (Nat → Nat) × (Nat → Nat)
  falcon_det1024_convert_compressed_to_ct : List Nat → Int × (Nat → Nat)

/-- The fixed ASCII bytes of the domain tag "FALCON_DET" written into the
salt at offset 2 by both the signer and the verifier. -/
def falconDetDomainTag : List Nat := [70, 65, 76, 67, 79, 78, 95, 68, 69, 84]

/-- The 40-byte salt rebuilt from a version byte: version, logDegree,
"FALCON_DET", then 28 zero bytes (as written by both wrapper paths). -/
def det1024_salt_from_version (v : Nat) : List Nat :=
  v :: FALCON_DET1024_LOGN :: (falconDetDomainTag ++ List.replicate 28 0)

/-- The salt the signer builds, using the current salt version. -/
def det1024_salt : List Nat :=
  det1024_salt_from_version FALCON_DET1024_CURRENT_SALT_VERSION

/-- The deterministic RNG state built by the signing wrapper:
SHAKE(logn-byte, then the secret key, then the message), flipped to
output mode.  No other entropy enters the signing path. -/
def det1024_detrng (sk msg : List Nat) : Shake256Context :=
  shake256_flip
    (shake256_inject
      (shake256_inject
        (shake256_inject shake256_init [FALCON_DET1024_LOGN]) sk) msg)

/-- The message-hash state built by the signing wrapper:
SHAKE(salt, then the message), left in input mode for the lattice engine. -/
def det1024_hd (msg : List Nat) : Shake256Context :=
  shake256_inject (shake256_inject shake256_init det1024_salt) msg

/-- The TAG_HEADER remap performed on a successful sign: byte 0 is the
inner header OR 0x80, byte 1 is the current salt version, and the rest is
the inner stream with its first 41 bytes (header plus 40-byte salt)
dropped. -/
def det1024_sign_remap (saltedsig : List Nat) : List Nat :=
  ((saltedsig.headD 0) ||| 0x80) ::
    FALCON_DET1024_CURRENT_SALT_VERSION :: saltedsig.drop 41

/-- falcon_det1024_sign_compressed_wrapper: checks the provided buffer
capacity against the deterministic compressed maximum, checks the secret
key logn, derives the deterministic RNG and message-hash states, calls the
lattice engine, and remaps the salted result to the compact wire format.
(The C null-pointer checks are not representable here: the JavaScript
caller always passes allocated buffers.) -/
def falcon_det1024_sign_compressed_wrapper (lib : FalconLib)
    (sigCapacity : Nat) (sk msg : List Nat) : Except Int (List Nat) :=
  if sigCapacity < FALCON_DET1024_SIG_COMPRESSED_MAXSIZE then
    Except.error (-2)
  else if lib.falcon_get_logn sk ≠ (FALCON_DET1024_LOGN : Int) then
    Except.error FALCON_ERR_FORMAT
  else
    match lib.falcon_sign_dyn_finish (det1024_detrng sk msg)
        FALCON_SIG_COMPRESSED sk (det1024_hd msg) det1024_salt with
    | Except.error r => Except.error r
    | Except.ok saltedsig => Except.ok (det1024_sign_remap saltedsig)

/-- The salted signature the compressed verifier reconstructs from a wire
signature: inner header with the top bit cleared, then the 40-byte salt
rebuilt from the signature's version byte, then the coefficient stream. -/
def det1024_reconstruct_salted (sig : List Nat) : List Nat :=
  ((sig.headD 0) &&& 0x7F) ::
    (det1024_salt_from_version ((sig[1]?).getD 0) ++ sig.drop 2)

/-- falcon_det1024_verify_compressed_wrapper: rejects signatures shorter
than 2 bytes or whose byte 0 differs from the fixed deterministic
compressed header, otherwise reconstructs the inner salted signature and
delegates to the lattice engine's verification. -/
def falcon_det1024_verify_compressed_wrapper (lib : FalconLib)
    (sig pk msg : List Nat) : Int :=
  if sig.length < 2 ∨ sig.headD 0 ≠ FALCON_DET1024_SIG_COMPRESSED_HEADER then
    FALCON_ERR_BADSIG
  else
    lib.falcon_verify (det1024_reconstruct_salted sig)
      FALCON_SIG_COMPRESSED pk msg

/-- falcon_det1024_verify_ct_wrapper: rejects signatures whose byte 0
differs from the fixed deterministic constant-time header, otherwise
reconstructs a fixed-length inner salted signature (exactly
ctSigSize - 2 coefficient bytes are copied) and delegates to the lattice
engine's constant-time verification path. -/
def falcon_det1024_verify_ct_wrapper (lib : FalconLib)
    (sig pk msg : List Nat) : Int :=
  if sig.headD 0 ≠ FALCON_DET1024_SIG_CT_HEADER then
    FALCON_ERR_BADSIG
  else
    lib.falcon_verify
      (((sig.headD 0) &&& 0x7F) ::
        (det1024_salt_from_version ((sig[1]?).getD 0) ++
          (sig.drop 2).take (FALCON_DET1024_SIG_CT_SIZE - 2)))
      FALCON_SIG_CT pk msg

/-- Modelled from the spec: falcon_det1024_get_salt_version of the missing
`deterministic.c` is a pure accessor reading sig[1].  `none` models the
out-of-bounds read the C code performs when the buffer holds fewer than
2 bytes: the value read is unspecified, but it is a byte (0..255), never
an error code. -/
def falcon_det1024_get_salt_version (sig : List Nat) : Option Nat :=
  sig[1]?

/-- falcon_det1024_get_salt_version_wrapper: returns -1 (InvalidArgument)
exactly on a NULL pointer, otherwise forwards to the accessor. -/
def falcon_det1024_get_salt_version_wrapper (sig : Option (List Nat)) :
    Option Int :=
  match sig with
  | none => some (-1)
  | some s => Option.map (fun n : Nat => Int.ofNat n) (falcon_det1024_get_salt_version s)

/-- falcon_det1024_keygen_wrapper: seeds a SHAKE256 PRNG from the given
48-byte system-entropy seed and calls the lattice engine's key generator,
which fills the two caller-provided buffers (returned here as the heap
contents after the call). -/
def falcon_det1024_keygen_wrapper (lib : FalconLib) (seed : List Nat) :
    Int × (Nat → Nat) × (Nat → Nat) :=
  lib.falcon_det1024_keygen (shake256_init_prng_from_seed seed)

/-- falcon_det1024_convert_compressed_to_ct_wrapper: forwards to the
lattice library's converter (the C null-pointer checks are not
representable: the JavaScript caller always passes allocated buffers). -/
def falcon_det1024_convert_compressed_to_ct_wrapper (lib : FalconLib)
    (sigCompressed : List Nat) : Int × (Nat → Nat) :=
  lib.falcon_det1024_convert_compressed_to_ct sigCompressed

/-- Errors thrown by the JavaScript `Falcon` class methods. -/
inductive JsErr where
  | invalidSecretKeyLength : JsErr
  | invalidPublicKeyLength : JsErr
  | invalidCtSignatureLength : JsErr
  | wasmError : Int → JsErr
deriving DecidableEq

/-- Falcon.keypair: calls the keygen wrapper with a fresh entropy seed and
copies exactly publicKeySize and secretKeySize bytes out of the module
heap; throws on a non-zero wrapper code. -/
def Falcon.keypair (lib : FalconLib) (seed : List Nat) :
    Except JsErr (List Nat × List Nat) :=
  let r := falcon_det1024_keygen_wrapper lib seed
  if r.1 ≠ 0 then Except.error (JsErr.wasmError r.1)
  else
    Except.ok ((List.range FALCON_DET1024_PUBKEY_SIZE).map r.2.2,
      (List.range FALCON_DET1024_PRIVKEY_SIZE).map r.2.1)

/-- Falcon.sign: checks the secret key length, then calls the signing
wrapper with a buffer of exactly the deterministic compressed maximum and
returns the signature bytes the wrapper produced. -/
def Falcon.sign (lib : FalconLib) (msg sk : List Nat) :
    Except JsErr (List Nat) :=
  if sk.length ≠ FALCON_DET1024_PRIVKEY_SIZE then
    Except.error JsErr.invalidSecretKeyLength
  else
    match falcon_det1024_sign_compressed_wrapper lib
        FALCON_DET1024_SIG_COMPRESSED_MAXSIZE sk msg with
    | Except.error c => Except.error (JsErr.wasmError c)
    | Except.ok w => Except.ok w

/-- Falcon.verify: checks the public key length (throwing on a mismatch),
then folds the compressed verification wrapper's result into a boolean. -/
def Falcon.verify (lib : FalconLib) (msg sig pk : List Nat) :
    Except JsErr Bool :=
  if pk.length ≠ FALCON_DET1024_PUBKEY_SIZE then
    Except.error JsErr.invalidPublicKeyLength
  else
    Except.ok (falcon_det1024_verify_compressed_wrapper lib sig pk msg = 0)

/-- Falcon.verifyConstantTime: checks the public key and signature lengths
(throwing on a mismatch), then folds the constant-time verification
wrapper's result into a boolean. -/
def Falcon.verifyConstantTime (lib : FalconLib) (msg sig pk : List Nat) :
    Except JsErr Bool :=
  if pk.length ≠ FALCON_DET1024_PUBKEY_SIZE then
    Except.error JsErr.invalidPublicKeyLength
  else if sig.length ≠ FALCON_DET1024_SIG_CT_SIZE then
    Except.error JsErr.invalidCtSignatureLength
  else
    Except.ok (falcon_det1024_verify_ct_wrapper lib sig pk msg = 0)

/-- Falcon.getSaltVersion: copies the signature into the module heap (a
non-NULL pointer) and calls the salt-version wrapper. -/
def Falcon.getSaltVersion (sig : List Nat) : Option Int :=
  falcon_det1024_get_salt_version_wrapper (some sig)

/-- Falcon.convertToConstantTime: calls the conversion wrapper and copies
exactly ctSigSize bytes out of the module heap; throws on a non-zero
wrapper code. -/
def Falcon.convertToConstantTime (lib : FalconLib) (sig : List Nat) :
    Except JsErr (List Nat) :=
  let r := falcon_det1024_convert_compressed_to_ct_wrapper lib sig
  if r.1 ≠ 0 then Except.error (JsErr.wasmError r.1)
  else Except.ok ((List.range FALCON_DET1024_SIG_CT_SIZE).map r.2)

/-- A fixed well-formed inner salted signature used to instantiate the
opaque lattice engine in witnesses: inner compressed header 0x3A, the
standard salt, and a one-byte coefficient stream. -/
def trivSalted : List Nat := 0x3A :: (det1024_salt ++ [7])

/-- A concrete instantiation of the external lattice library, used to
evaluate the wrappers at concrete inputs in witnesses and
counterexamples. -/
def trivLib : FalconLib where
  falcon_get_logn := fun _ => (FALCON_DET1024_LOGN : Int)
  falcon_sign_dyn_finish := fun _ _ _ _ _ => Except.ok trivSalted
  falcon_verify := fun _ _ _ _ => 0
  falcon_det1024_keygen := fun _ => (0, (fun _ => 0), (fun _ => 0))
  falcon_det1024_convert_compressed_to_ct := fun _ => (0, fun _ => 0)

/-- A fixed all-zero buffer of the secret-key size, used to exercise the
signing path in witnesses. -/
def skWitness : List Nat := List.replicate FALCON_DET1024_PRIVKEY_SIZE 0

/-- JavaScript toString(16) for the values held by a Uint8Array entry:
lowercase hex digits with no leading zeros (Nat.toDigits base 16 renders
exactly this). -/
def jsToString16 (n : Nat) : List Char := Nat.toDigits 16 n

/-- JavaScript padStart(2, "0"). -/
def padStart2 (s : List Char) : List Char := List.replicate (2 - s.length) '0' ++ s

/-- One byte as rendered by bytesToHex: toString(16) padded to two chars. -/
def byteToHex (b : Nat) : List Char := padStart2 (jsToString16 b)

/-- Falcon.bytesToHex: each byte to two hex chars, joined. -/
def Falcon.bytesToHex (bs : List Nat) : List Char := (bs.map byteToHex).flatten

/-- The behaviour of match(/.{1,2}/g) on a newline-free string: greedy
two-character chunks with a final one-character chunk on odd length. -/
def chunkPairs : List Char → List (List Char)
  | [] => []
  | [c] => [[c]]
  | c1 :: c2 :: rest => [c1, c2] :: chunkPairs rest

/-- The numeric value of one hex digit, or none (parseInt stops there). -/
def hexCharVal (c : Char) : Option Nat :=
  if ('0' : Char) ≤ c ∧ c ≤ ('9' : Char) then some (c.toNat - 48)
  else if ('a' : Char) ≤ c ∧ c ≤ ('f' : Char) then some (c.toNat - 87)
  else if ('A' : Char) ≤ c ∧ c ≤ ('F' : Char) then some (c.toNat - 55)
  else none

/-- The accumulating loop of parseInt(s, 16) over the valid digit prefix. -/
def parseIntHexAux : List Char → Nat → Nat
  | [], acc => acc
  | c :: rest, acc =>
    match hexCharVal c with
    | some v => parseIntHexAux rest (acc * 16 + v)
    | none => acc

/-- JavaScript parseInt(s, 16) on the digit-only chunks arising here: none
models NaN (no leading hex digit). -/
def jsParseIntHex (s : List Char) : Option Nat :=
  match s with
  | [] => none
  | c :: rest =>
    match hexCharVal c with
    | some v => some (parseIntHexAux rest v)
    | none => none

/-- The element conversion the Uint8Array constructor applies to each
parseInt result: NaN becomes 0 and values are reduced mod 256. -/
def toUint8 (o : Option Nat) : Nat := o.getD 0 % 256

/-- Falcon.hexToBytes: match(/.{1,2}/g) — null exactly on the empty
string, modelled as none — then parseInt base 16 per chunk, collected
into a Uint8Array. -/
def Falcon.hexToBytes (s : List Char) : Option (List Nat) :=
  if s.isEmpty then none
  else some ((chunkPairs s).map (fun c => toUint8 (jsParseIntHex c)))


/-- Setting the top bit of a byte below 128 and then clearing it restores
the byte: the header remap of the signer and the header reconstruction of
the verifier are inverse on the header bits. -/
theorem lor_land_cancel : ∀ h : Fin 128, ((h.val ||| 128) &&& 127) = h.val := by decide

/-- C1: the deterministic signing wrapper is a pure function of the
secret key and message: two runs on the same pair give identical results
for every lattice engine, and the signing randomness absorbed into the
detrng SHAKE256 state is exactly the logDegree byte, the secret key bytes
and the message bytes, with no fresh entropy. -/
theorem c1_sign_deterministic (lib : FalconLib) (cap : Nat) (sk msg : List Nat)
    (out1 out2 : Except Int (List Nat))
    (h1 : out1 = falcon_det1024_sign_compressed_wrapper lib cap sk msg)
    (h2 : out2 = falcon_det1024_sign_compressed_wrapper lib cap sk msg) :
    out1 = out2 ∧
      (det1024_detrng sk msg).absorbed = FALCON_DET1024_LOGN :: (sk ++ msg) ∧
      (det1024_detrng sk msg).flipped = true := by
  subst h1; subst h2
  refine ⟨rfl, ?_, rfl⟩
  simp [det1024_detrng, shake256_init, shake256_inject, shake256_flip]

/-- Witness for C1 at a concrete library, capacity and empty inputs. -/
theorem c1_sign_deterministic_witness :
    falcon_det1024_sign_compressed_wrapper trivLib FALCON_DET1024_SIG_COMPRESSED_MAXSIZE [] [] =
        falcon_det1024_sign_compressed_wrapper trivLib FALCON_DET1024_SIG_COMPRESSED_MAXSIZE [] [] ∧
      (det1024_detrng [] []).absorbed = FALCON_DET1024_LOGN :: (([] : List Nat) ++ []) ∧
      (det1024_detrng [] []).flipped = true :=
  c1_sign_deterministic trivLib FALCON_DET1024_SIG_COMPRESSED_MAXSIZE [] [] _ _ rfl rfl

/-- C2: on a successful signing call the emitted wire signature is the
TAG_HEADER remap of the inner salted signature: byte 0 is the inner
header OR 0x80, byte 1 is the current salt version, the rest is the inner
stream with the 41 header-and-salt bytes dropped, and the total length is
the inner salted length minus 39, hence at most the inner compressed
maximum minus 39. -/
theorem c2_sign_header_remap (lib : FalconLib) (cap : Nat) (sk msg saltedsig : List Nat)
    (hcap : FALCON_DET1024_SIG_COMPRESSED_MAXSIZE ≤ cap)
    (hlogn : lib.falcon_get_logn sk = (FALCON_DET1024_LOGN : Int))
    (hsig : lib.falcon_sign_dyn_finish (det1024_detrng sk msg) FALCON_SIG_COMPRESSED sk
      (det1024_hd msg) det1024_salt = Except.ok saltedsig)
    (hlo : 41 ≤ saltedsig.length)
    (hhi : saltedsig.length ≤ FALCON_SIG_COMPRESSED_MAXSIZE10) :
    falcon_det1024_sign_compressed_wrapper lib cap sk msg =
        Except.ok (det1024_sign_remap saltedsig) ∧
      (det1024_sign_remap saltedsig)[0]? = some ((saltedsig.headD 0) ||| 0x80) ∧
      (det1024_sign_remap saltedsig)[1]? = some FALCON_DET1024_CURRENT_SALT_VERSION ∧
      (det1024_sign_remap saltedsig).drop 2 = saltedsig.drop 41 ∧
      (det1024_sign_remap saltedsig).length = saltedsig.length - 39 ∧
      (det1024_sign_remap saltedsig).length ≤ FALCON_SIG_COMPRESSED_MAXSIZE10 - 39 := by
  have hncap : ¬ (cap < FALCON_DET1024_SIG_COMPRESSED_MAXSIZE) := Nat.not_lt.mpr hcap
  have hlen : (det1024_sign_remap saltedsig).length = saltedsig.length - 39 := by
    simp only [det1024_sign_remap, List.length_cons, List.length_drop]
    omega
  refine ⟨?_, by simp [det1024_sign_remap], by simp [det1024_sign_remap],
    by simp [det1024_sign_remap], hlen, by rw [hlen]; omega⟩
  simp [falcon_det1024_sign_compressed_wrapper, hncap, hlogn, hsig]

/-- Witness for C2 at a concrete library and a 42-byte inner salted
signature. -/
theorem c2_sign_header_remap_witness :
    falcon_det1024_sign_compressed_wrapper trivLib FALCON_DET1024_SIG_COMPRESSED_MAXSIZE [] [] =
        Except.ok (det1024_sign_remap trivSalted) ∧
      (det1024_sign_remap trivSalted)[0]? = some ((trivSalted.headD 0) ||| 0x80) ∧
      (det1024_sign_remap trivSalted)[1]? = some FALCON_DET1024_CURRENT_SALT_VERSION ∧
      (det1024_sign_remap trivSalted).drop 2 = trivSalted.drop 41 ∧
      (det1024_sign_remap trivSalted).length = trivSalted.length - 39 ∧
      (det1024_sign_remap trivSalted).length ≤ FALCON_SIG_COMPRESSED_MAXSIZE10 - 39 :=
  c2_sign_header_remap trivLib FALCON_DET1024_SIG_COMPRESSED_MAXSIZE [] [] trivSalted
    (le_refl _) rfl rfl (by decide) (by decide)

/-- C3: the verifier's reconstruction inverts the signer's remap: for an
inner salted signature carrying the standard current-version salt and a
top-bit-free inner header, remapping to the wire format and then
reconstructing yields the original salted signature byte for byte. -/
theorem c3_remap_reconstruct_roundtrip (hdr : Nat) (coeffs : List Nat) (hh : hdr < 128) :
    det1024_reconstruct_salted (det1024_sign_remap (hdr :: (det1024_salt ++ coeffs))) =
      hdr :: (det1024_salt ++ coeffs) := by
  have hdrop : List.drop 41 (hdr :: (det1024_salt ++ coeffs)) = coeffs := by
    rw [List.drop_succ_cons, show (40 : Nat) = det1024_salt.length from rfl, List.drop_left]
  have h1 : det1024_sign_remap (hdr :: (det1024_salt ++ coeffs)) =
      (hdr ||| 128) :: FALCON_DET1024_CURRENT_SALT_VERSION :: coeffs := by
    simp [det1024_sign_remap, hdrop]
  rw [h1]
  simp only [det1024_reconstruct_salted, List.headD_cons, List.getElem?_cons_succ,
    List.getElem?_cons_zero, Option.getD_some, List.drop_succ_cons, List.drop_zero]
  rw [show det1024_salt_from_version FALCON_DET1024_CURRENT_SALT_VERSION = det1024_salt from rfl]
  rw [show ((hdr ||| 128) &&& 127) = hdr from lor_land_cancel ⟨hdr, hh⟩]

/-- Witness for C3 at the inner header 0x3A and a one-byte coefficient
stream. -/
theorem c3_remap_reconstruct_roundtrip_witness :
    det1024_reconstruct_salted (det1024_sign_remap (0x3A :: (det1024_salt ++ [7]))) =
      0x3A :: (det1024_salt ++ [7]) :=
  c3_remap_reconstruct_roundtrip 0x3A [7] (by decide)

/-- C4 (amended): for inputs whose public key has exactly publicKeySize
bytes — and, for verifyConstantTime, whose signature has exactly ctSigSize
bytes — verify and verifyConstantTime return a boolean and never throw;
within those length checks wrong shape and wrong content both fold into
the boolean result.  The original claim, quantifying over every well-typed
triple, is refuted by the counterexample below. -/
theorem c4_verify_total (lib : FalconLib) (msg sig pk : List Nat)
    (hpk : pk.length = FALCON_DET1024_PUBKEY_SIZE) :
    (∃ b : Bool, Falcon.verify lib msg sig pk = Except.ok b) ∧
      (sig.length = FALCON_DET1024_SIG_CT_SIZE →
        ∃ b : Bool, Falcon.verifyConstantTime lib msg sig pk = Except.ok b) := by
  constructor
  · refine ⟨decide (falcon_det1024_verify_compressed_wrapper lib sig pk msg = 0), ?_⟩
    simp [Falcon.verify, hpk]
  · intro hsig
    refine ⟨decide (falcon_det1024_verify_ct_wrapper lib sig pk msg = 0), ?_⟩
    simp [Falcon.verifyConstantTime, hpk, hsig]

/-- Witness for C4 at a concrete library, an all-zero public key of the
correct length and an empty signature. -/
theorem c4_verify_total_witness :
    (∃ b : Bool, Falcon.verify trivLib [] [] (List.replicate FALCON_DET1024_PUBKEY_SIZE 0) =
        Except.ok b) ∧
      (([] : List Nat).length = FALCON_DET1024_SIG_CT_SIZE →
        ∃ b : Bool, Falcon.verifyConstantTime trivLib [] []
          (List.replicate FALCON_DET1024_PUBKEY_SIZE 0) = Except.ok b) :=
  c4_verify_total trivLib [] [] (List.replicate FALCON_DET1024_PUBKEY_SIZE 0) (by simp)

/-- Counterexample to C4 as stated: the well-typed triple of empty
message, empty signature and empty public key makes Falcon.verify throw
the invalid-public-key-length error instead of returning a boolean. -/
theorem c4_verify_total_counterexample :
    Falcon.verify trivLib [] [] [] = Except.error JsErr.invalidPublicKeyLength := rfl

/-- C5 (amended): the compressed verification wrapper reports
BadSignatureFormat exactly when the signature is shorter than 2 bytes or
its byte 0 differs from the fixed deterministic compressed header
constant; in particular every signature whose byte 0 lacks the
deterministic tag bit is rejected, and every signature passing the two
checks proceeds to salt reconstruction and the lattice-engine call.  The
original claim let any byte 0 with the tag bit set pass; the
counterexample below refutes that. -/
theorem c5_verify_compressed_shape_check (lib : FalconLib) (sig pk msg : List Nat) :
    (sig.length < 2 ∨ sig.headD 0 ≠ FALCON_DET1024_SIG_COMPRESSED_HEADER →
      falcon_det1024_verify_compressed_wrapper lib sig pk msg = FALCON_ERR_BADSIG) ∧
      ((sig.headD 0) &&& 0x80 = 0 →
        falcon_det1024_verify_compressed_wrapper lib sig pk msg = FALCON_ERR_BADSIG) ∧
      (2 ≤ sig.length → sig.headD 0 = FALCON_DET1024_SIG_COMPRESSED_HEADER →
        falcon_det1024_verify_compressed_wrapper lib sig pk msg =
          lib.falcon_verify (det1024_reconstruct_salted sig) FALCON_SIG_COMPRESSED pk msg) := by
  refine ⟨?_, ?_, ?_⟩
  · intro h
    unfold falcon_det1024_verify_compressed_wrapper
    rw [if_pos h]
  · intro h
    have hne : sig.headD 0 ≠ FALCON_DET1024_SIG_COMPRESSED_HEADER := by
      intro he
      rw [he] at h
      exact absurd h (by decide)
    unfold falcon_det1024_verify_compressed_wrapper
    rw [if_pos (Or.inr hne)]
  · intro h1 h2
    have hnot : ¬ (sig.length < 2 ∨ sig.headD 0 ≠ FALCON_DET1024_SIG_COMPRESSED_HEADER) := by
      rintro (hl | hh)
      · omega
      · exact hh h2
    unfold falcon_det1024_verify_compressed_wrapper
    rw [if_neg hnot]

/-- Witness for C5: a one-byte signature is rejected with
BadSignatureFormat, and a two-byte signature with the exact header
proceeds to the lattice-engine call on the reconstruction. -/
theorem c5_verify_compressed_shape_check_witness :
    falcon_det1024_verify_compressed_wrapper trivLib [0] [] [] = FALCON_ERR_BADSIG ∧
      falcon_det1024_verify_compressed_wrapper trivLib [0xBA, 0] [] [] =
        trivLib.falcon_verify (det1024_reconstruct_salted [0xBA, 0]) FALCON_SIG_COMPRESSED [] [] :=
  ⟨(c5_verify_compressed_shape_check trivLib [0] [] []).1 (Or.inl (by decide)),
    (c5_verify_compressed_shape_check trivLib [0xBA, 0] [] []).2.2 (by decide) (by decide)⟩

/-- Counterexample to C5 as stated: the signature 0x81 0x00 has the
deterministic tag bit set and length 2, yet the wrapper returns
BadSignatureFormat rather than proceeding to the engine call (which would
return 0 for this concrete engine). -/
theorem c5_verify_compressed_counterexample :
    (((0x81 : Nat) &&& 0x80 ≠ 0) ∧ 2 ≤ ([0x81, 0] : List Nat).length) ∧
      falcon_det1024_verify_compressed_wrapper trivLib [0x81, 0] [] [] = FALCON_ERR_BADSIG ∧
      trivLib.falcon_verify (det1024_reconstruct_salted [0x81, 0]) FALCON_SIG_COMPRESSED [] [] = 0 ∧
      FALCON_ERR_BADSIG ≠ (0 : Int) := by
  refine ⟨⟨by decide, by decide⟩, rfl, rfl, by decide⟩

/-- C6: whenever keypair succeeds the returned public and secret keys
have exactly 1793 and 2305 bytes, and whenever convertToConstantTime
succeeds the returned constant-time signature has exactly 1538 bytes. -/
theorem c6_size_invariants (lib : FalconLib) (seed sig : List Nat) :
    (∀ pk sk : List Nat, Falcon.keypair lib seed = Except.ok (pk, sk) →
      pk.length = FALCON_DET1024_PUBKEY_SIZE ∧ sk.length = FALCON_DET1024_PRIVKEY_SIZE) ∧
      (∀ ct : List Nat, Falcon.convertToConstantTime lib sig = Except.ok ct →
        ct.length = FALCON_DET1024_SIG_CT_SIZE) := by
  constructor
  · intro pk sk h
    simp only [Falcon.keypair] at h
    split at h
    · exact absurd h (by simp)
    · simp only [Except.ok.injEq, Prod.mk.injEq] at h
      obtain ⟨hpk, hsk⟩ := h
      subst hpk
      subst hsk
      constructor <;> simp
  · intro ct h
    simp only [Falcon.convertToConstantTime] at h
    split at h
    · exact absurd h (by simp)
    · simp only [Except.ok.injEq] at h
      subst h
      simp

/-- Witness for C6 at a concrete library whose key generation
succeeds. -/
theorem c6_size_invariants_witness :
    ((List.range FALCON_DET1024_PUBKEY_SIZE).map (fun _ => 0)).length =
        FALCON_DET1024_PUBKEY_SIZE ∧
      ((List.range FALCON_DET1024_PRIVKEY_SIZE).map (fun _ => 0)).length =
        FALCON_DET1024_PRIVKEY_SIZE :=
  (c6_size_invariants trivLib [] []).1
    ((List.range FALCON_DET1024_PUBKEY_SIZE).map (fun _ => 0))
    ((List.range FALCON_DET1024_PRIVKEY_SIZE).map (fun _ => 0)) rfl

/-- C7: applying getSaltVersion to any compressed signature returned by
a successful Falcon.sign yields exactly the current salt-version
constant, because signing writes that constant into byte 1 and
getSaltVersion reads byte 1 back. -/
theorem c7_salt_version_roundtrip (lib : FalconLib) (msg sk w : List Nat)
    (h : Falcon.sign lib msg sk = Except.ok w) :
    Falcon.getSaltVersion w = some ((FALCON_DET1024_CURRENT_SALT_VERSION : Nat) : Int) := by
  unfold Falcon.sign at h
  split at h
  · exact absurd h (by simp)
  · revert h
    cases hw : falcon_det1024_sign_compressed_wrapper lib
        FALCON_DET1024_SIG_COMPRESSED_MAXSIZE sk msg with
    | error c => intro h; exact absurd h (by simp)
    | ok w2 =>
      intro h
      simp only [Except.ok.injEq] at h
      subst h
      unfold falcon_det1024_sign_compressed_wrapper at hw
      split at hw
      · exact absurd hw (by simp)
      · split at hw
        · exact absurd hw (by simp)
        · revert hw
          cases lib.falcon_sign_dyn_finish (det1024_detrng sk msg)
              FALCON_SIG_COMPRESSED sk (det1024_hd msg) det1024_salt with
          | error r => intro hw; exact absurd hw (by simp)
          | ok salted =>
            intro hw
            simp only [Except.ok.injEq] at hw
            subst hw
            simp [Falcon.getSaltVersion, falcon_det1024_get_salt_version_wrapper,
              falcon_det1024_get_salt_version, det1024_sign_remap]

/-- Witness for C7: signing with a concrete library and an all-zero
secret key of the correct length produces the wire signature
0xBA 0x00 0x07, whose salt version reads back as 0. -/
theorem c7_salt_version_roundtrip_witness :
    Falcon.getSaltVersion [186, 0, 7] =
      some ((FALCON_DET1024_CURRENT_SALT_VERSION : Nat) : Int) :=
  c7_salt_version_roundtrip trivLib [] skWitness [186, 0, 7] (by
    unfold Falcon.sign
    rw [if_neg (by simp [skWitness])]
    rfl)

/-- C8 (amended): for every signature of length at least 2 the
salt-version wrapper returns the integer value of byte 1; it returns the
InvalidArgument code -1 exactly on a NULL input, and never returns that
code for any non-null input.  The original claim also promised
InvalidArgument on an empty input; the counterexample below refutes
that. -/
theorem c8_get_salt_version_accessor (sig : List Nat) (h : 2 ≤ sig.length) :
    (∃ b : Nat, sig[1]? = some b ∧
      falcon_det1024_get_salt_version_wrapper (some sig) = some ((b : Nat) : Int)) ∧
      falcon_det1024_get_salt_version_wrapper none = some (-1) ∧
      ∀ s : List Nat, falcon_det1024_get_salt_version_wrapper (some s) ≠ some (-1) := by
  refine ⟨?_, rfl, ?_⟩
  · have h1 : 1 < sig.length := by omega
    refine ⟨sig.get ⟨1, h1⟩, ?_, ?_⟩
    · rw [List.getElem?_eq_getElem h1, List.get_eq_getElem]
    · simp [falcon_det1024_get_salt_version_wrapper, falcon_det1024_get_salt_version,
        List.getElem?_eq_getElem h1, List.get_eq_getElem]
  · intro s
    have hred : falcon_det1024_get_salt_version_wrapper (some s) =
        Option.map (fun n : Nat => Int.ofNat n) s[1]? := rfl
    rw [hred]
    cases s[1]? with
    | none => simp
    | some n =>
      simp only [Option.map_some', ne_eq, Option.some.injEq, Int.ofNat_eq_natCast]
      omega

/-- Witness for C8 at the two-byte signature 0x05 0x09. -/
theorem c8_get_salt_version_accessor_witness :
    (∃ b : Nat, ([5, 9] : List Nat)[1]? = some b ∧
      falcon_det1024_get_salt_version_wrapper (some [5, 9]) = some ((b : Nat) : Int)) ∧
      falcon_det1024_get_salt_version_wrapper none = some (-1) ∧
      ∀ s : List Nat, falcon_det1024_get_salt_version_wrapper (some s) ≠ some (-1) :=
  c8_get_salt_version_accessor [5, 9] (by decide)

/-- Counterexample to C8 as stated: on the empty (non-null) input the
wrapper performs an out-of-bounds read — modelled as none — and in
particular does not produce the InvalidArgument code -1 (the underlying
accessor returns a byte read at offset 1, never -1). -/
theorem c8_get_salt_version_counterexample :
    falcon_det1024_get_salt_version_wrapper (some []) = none ∧
      falcon_det1024_get_salt_version_wrapper (some []) ≠ some (-1) :=
  ⟨rfl, by decide⟩

/-- C10 (amended): the signing wrapper requires the caller-provided
buffer capacity to be at least FALCON_DET1024_SIG_COMPRESSED_MAXSIZE,
which is the full inner compressed maximum minus 39, failing with the
buffer-too-small code -2 before any key access whenever the capacity is
smaller (the result is -2 for every library and key); and every emitted
signature fits within that required capacity.  The original claim, read
with the spec's compressedSigMaxSize constant (the inner maximum 1462),
overstates the threshold; the counterexample below refutes it. -/
theorem c10_sign_buffer_capacity (lib : FalconLib) (cap : Nat)
    (sk msg saltedsig : List Nat) :
    (cap < FALCON_DET1024_SIG_COMPRESSED_MAXSIZE →
      falcon_det1024_sign_compressed_wrapper lib cap sk msg = Except.error (-2)) ∧
      (∀ w : List Nat, 41 ≤ saltedsig.length →
        saltedsig.length ≤ FALCON_SIG_COMPRESSED_MAXSIZE10 →
        lib.falcon_sign_dyn_finish (det1024_detrng sk msg) FALCON_SIG_COMPRESSED sk
          (det1024_hd msg) det1024_salt = Except.ok saltedsig →
        falcon_det1024_sign_compressed_wrapper lib cap sk msg = Except.ok w →
        w.length ≤ FALCON_DET1024_SIG_COMPRESSED_MAXSIZE) := by
  constructor
  · intro hc
    unfold falcon_det1024_sign_compressed_wrapper
    rw [if_pos hc]
  · intro w hlo hhi hsig hw
    unfold falcon_det1024_sign_compressed_wrapper at hw
    split at hw
    · exact absurd hw (by simp)
    · split at hw
      · exact absurd hw (by simp)
      · rw [hsig] at hw
        simp only [Except.ok.injEq] at hw
        subst hw
        simp only [det1024_sign_remap, List.length_cons, List.length_drop,
          FALCON_DET1024_SIG_COMPRESSED_MAXSIZE, FALCON_SIG_COMPRESSED_MAXSIZE10]
        simp only [FALCON_SIG_COMPRESSED_MAXSIZE10] at hhi
        omega

/-- Witness for C10 at capacity 0, which fails with -2. -/
theorem c10_sign_buffer_capacity_witness :
    falcon_det1024_sign_compressed_wrapper trivLib 0 [] [] = Except.error (-2) :=
  (c10_sign_buffer_capacity trivLib 0 [] [] []).1 (by decide)

/-- Counterexample to C10 as stated: a capacity equal to the
deterministic maximum 1423 is strictly below the full inner
compressedSigMaxSize constant 1462, yet signing succeeds instead of
failing with -2. -/
theorem c10_sign_buffer_counterexample :
    FALCON_DET1024_SIG_COMPRESSED_MAXSIZE < FALCON_SIG_COMPRESSED_MAXSIZE10 ∧
      falcon_det1024_sign_compressed_wrapper trivLib
        FALCON_DET1024_SIG_COMPRESSED_MAXSIZE [] [] = Except.ok [186, 0, 7] :=
  ⟨by decide, by rfl⟩

set_option maxRecDepth 4000 in
/-- Each byte below 256 renders to exactly two hex characters, and
parsing those two characters back recovers the byte. -/
theorem byteToHex_spec :
    ∀ b : Fin 256, toUint8 (jsParseIntHex (byteToHex b.val)) = b.val ∧
      (byteToHex b.val).length = 2 := by decide

/-- Splitting the rendered hex string into two-character chunks and
parsing each chunk recovers the original byte list. -/
theorem chunk_map_roundtrip (bs : List Nat) (hb : ∀ b ∈ bs, b < 256) :
    (chunkPairs (Falcon.bytesToHex bs)).map (fun c => toUint8 (jsParseIntHex c)) = bs := by
  induction bs with
  | nil => rfl
  | cons b rest ih =>
    have hblt : b < 256 := hb b (List.mem_cons_self b rest)
    have hs := byteToHex_spec ⟨b, hblt⟩
    obtain ⟨c1, c2, hc⟩ := List.length_eq_two.mp hs.2
    have hbytes : Falcon.bytesToHex (b :: rest) = byteToHex b ++ Falcon.bytesToHex rest := by
      simp [Falcon.bytesToHex]
    rw [hbytes, hc]
    show (chunkPairs (c1 :: c2 :: Falcon.bytesToHex rest)).map
        (fun c => toUint8 (jsParseIntHex c)) = b :: rest
    rw [show chunkPairs (c1 :: c2 :: Falcon.bytesToHex rest) =
        [c1, c2] :: chunkPairs (Falcon.bytesToHex rest) from rfl]
    rw [List.map_cons]
    congr 1
    · rw [← hc]
      exact hs.1
    · exact ih (fun x hx => hb x (List.mem_cons_of_mem b hx))

/-- C9: hexToBytes inverts bytesToHex on every non-empty byte array;
on the empty array bytesToHex returns the empty string, on which
hexToBytes throws (the regex match returns null, modelled as none), so
the round-trip identity holds exactly for non-empty inputs. -/
theorem c9_hex_roundtrip :
    (Falcon.bytesToHex [] = [] ∧ Falcon.hexToBytes [] = none) ∧
      ∀ bs : List Nat, bs ≠ [] → (∀ b ∈ bs, b < 256) →
        Falcon.hexToBytes (Falcon.bytesToHex bs) = some bs := by
  refine ⟨⟨rfl, rfl⟩, ?_⟩
  intro bs hne hb
  have hnemp : ¬ (Falcon.bytesToHex bs).isEmpty = true := by
    cases bs with
    | nil => exact absurd rfl hne
    | cons b rest =>
      have hblt : b < 256 := hb b (List.mem_cons_self b rest)
      obtain ⟨c1, c2, hc⟩ := List.length_eq_two.mp (byteToHex_spec ⟨b, hblt⟩).2
      have hbytes : Falcon.bytesToHex (b :: rest) = byteToHex b ++ Falcon.bytesToHex rest := by
        simp [Falcon.bytesToHex]
      rw [hbytes, hc]
      simp
  unfold Falcon.hexToBytes
  rw [if_neg hnemp, chunk_map_roundtrip bs hb]

/-- Witness for C9 at the byte array 171, 0, 255. -/
theorem c9_hex_roundtrip_witness :
    Falcon.hexToBytes (Falcon.bytesToHex [171, 0, 255]) = some [171, 0, 255] :=
  c9_hex_roundtrip.2 [171, 0, 255] (by decide) (by decide)
